import Mathlib

/-!
Verification of the dbless-alembic orchestration tool (src/dbless_migration.py)
against its natural-language specification.

The Python module drives three flows (start, stop, auto) over external
collaborators: the docker runtime, the alembic migration engine and a
sqlalchemy connectivity probe.  We embed the module shallowly:

* the docker daemon state is a list of images (each image is its list of
  tags, first tag first) and a list of named containers with a running flag;
  `client.containers.list()` lists only running containers, container names
  are unique in the daemon, and `client.containers.run(..., name=n)` fails
  with a 409 name conflict when any container (running or stopped) already
  holds the name;
* outcomes of the external operations that can succeed or raise (image pull,
  container run/stop/remove, the migration engine commands) are supplied by
  an `Ext` record, and the connectivity probe is a function from attempt
  index to outcome;
* `io.StringIO` is modelled as its character content plus the read/write
  position: a write inserts at the position and advances it, `readline`
  reads from the position up to and including the next newline;
* every embedded function returns, besides its Python return value or
  raised exception (as `Except Err`), the updated state it touches and a
  trace of the external operations it performed, in order.

Time in `wait_for_db_connection` is idealised: a probe attempt takes no
time and each `time.sleep(1)` advances the monotonic clock by one second,
so the loop guard `time.monotonic() - start_time < timeout` holds exactly
while `timeout - elapsed > 0`.
-/

set_option linter.unusedVariables false

namespace Dbless

/-- `CONTAINER_NAME = "dbless"` (src line 26): the reserved container name. -/
def CONTAINER_NAME : String := "dbless"

/-- `INI_SECTION_NAME = "dbless"` (src line 27). -/
def INI_SECTION_NAME : String := "dbless"

/-- Exceptions the Python module can raise or see raised by its
collaborators.  `abort` is `typer.Abort()` (the AlreadyMigrated guard),
`nameConflict` is the docker 409 raised by `containers.run` when the name
is taken, `clickException` is `click.ClickException`. -/
inductive Err where
  | imagePullError (msg : String)
  | containerStartError (msg : String)
  | nameConflict
  | containerStopError (msg : String)
  | containerRemoveError (msg : String)
  | probeFatal (msg : String)
  | abort
  | migrationApplyError (msg : String)
  | migrationGenerateError (msg : String)
  | clickException (msg : String)
deriving DecidableEq, Repr

/-- Outcome of one `create_engine(url); engine.connect()` attempt
(src lines 127-128): success, `sqlalchemy.exc.OperationalError` (caught
and retried, src line 129), or any other exception (propagates). -/
inductive ProbeOutcome where
  | success
  | unreachable
  | fatal (e : Err)
deriving DecidableEq, Repr

/-- External operations performed by the module, in the order the code
issues them. -/
inductive Event where
  | pull (image : String)
  | containerRun (image : String)
  | containerStop (name : String)
  | containerRemove (name : String)
  | probeAttempt (url : String)
  | sleepSec (n : Nat)
  | alembicCurrent (url : String)
  | alembicUpgrade (url : String) (revision : String)
  | alembicRevision (url : String) (message : String)
deriving DecidableEq, Repr

/-- The database url an event targets, when it targets one. -/
def Event.dbUrl? : Event → Option String
  | .probeAttempt u => some u
  | .alembicCurrent u => some u
  | .alembicUpgrade u _ => some u
  | .alembicRevision u _ => some u
  | _ => none

/-- A docker container as the daemon sees it: its (unique) name and
whether it is currently running. -/
structure DockerContainer where
  name : String
  running : Bool
deriving DecidableEq, Repr

/-- The docker daemon state: locally cached images (each image is its tag
list, `tags[0]` first) and the containers. -/
structure DockerState where
  images : List (List String)
  containers : List DockerContainer
deriving DecidableEq, Repr

/-- `client.containers.list()`: only running containers. -/
def listRunning (st : DockerState) : List DockerContainer :=
  st.containers.filter (fun c => c.running)

/-- Behaviour of the external collaborators for one flow invocation:
whether each delegated operation succeeds or raises, what the probe
reports on each attempt, and what `alembic current` prints to the
configured stdout stream. -/
structure Ext where
  imagePull : Except Err Unit
  runtimeRun : Except Err Unit
  stopOp : Except Err Unit
  removeOp : Except Err Unit
  probe : Nat → ProbeOutcome
  currentOutput : String
  upgradeOutcome : Except Err Unit
  revisionOutcome : Except Err Unit

/-- `io.StringIO`: the buffer content and the current stream position. -/
structure StringIOBuf where
  content : String
  pos : Nat
deriving DecidableEq, Repr

/-- `StringIO.write`: overwrite at the current position (the flows only
ever write at the end) and advance the position past the written text. -/
def StringIOBuf.write (s : StringIOBuf) (t : String) : StringIOBuf :=
  { content := (s.content.take s.pos) ++ t ++ (s.content.drop (s.pos + t.length)),
    pos := s.pos + t.length }

/-- Characters of one line: up to and including the first newline. -/
def takeLine : List Char → List Char
  | [] => []
  | c :: cs => if c = '\n' then [c] else c :: takeLine cs

/-- `StringIO.readline`: read one line starting at the current position
and advance the position past it.  Reading at end of stream yields "". -/
def StringIOBuf.readline (s : StringIOBuf) : String × StringIOBuf :=
  let line := String.mk (takeLine (s.content.toList.drop s.pos))
  (line, { s with pos := s.pos + line.length })

/-- The alembic configuration object as the module uses it: its
`sqlalchemy.url` main option and the `stdout` stream attached to it
(src lines 177-180). -/
structure AlembicCfg where
  sqlalchemyUrl : String
  stdout : StringIOBuf
deriving DecidableEq, Repr

/-- The parsed `Config` pydantic model (src lines 35-49).  The two dict
fields are kept as association lists in parse order. -/
structure Config where
  image_name : String
  container_env : List (String × String)
  port_mapping : List (String × Int)
  engine_url : String
deriving DecidableEq, Repr

/-- Python `str.split(sep)` for a one-character separator, on the
character list: chunks between separator occurrences, so the empty
string yields `[""]` and adjacent separators yield empty chunks. -/
def splitCharAux (sep : Char) : List Char → List Char → List String
  | [], acc => [String.mk acc.reverse]
  | c :: cs, acc =>
      if c = sep then String.mk acc.reverse :: splitCharAux sep cs []
      else splitCharAux sep cs (c :: acc)

/-- Python `value.split(sep)` with a one-character separator. -/
def splitOnChar (sep : Char) (s : String) : List String :=
  splitCharAux sep s.toList []

/-- Digits-only accumulator for Python `int(str)`. -/
def natOfDigits : List Char → Nat → Option Nat
  | [], acc => some acc
  | c :: cs, acc =>
      if c.isDigit then natOfDigits cs (acc * 10 + (c.toNat - '0'.toNat)) else none

/-- Python `int(str)` as pydantic applies it to a port value: an
optional minus sign followed by at least one decimal digit. -/
def pyInt (s : String) : Option Int :=
  match s.toList with
  | [] => none
  | '-' :: rest =>
      match rest with
      | [] => none
      | _ => (natOfDigits rest 0).map (fun n => -(n : Int))
  | l => (natOfDigits l 0).map (fun n => (n : Int))

/-- The `parse_as_dict` validator (src lines 41-49) on a string input
from the ini file: split on ";", drop empty chunks, split each chunk on
"=" and require exactly a key and a value (the Python dict comprehension
raises ValueError when unpacking fails). -/
def parse_as_dict (value : String) : Except String (List (String × String)) :=
  ((splitOnChar ';' value).filter (fun v => v ≠ "")).mapM (fun v =>
    match splitOnChar '=' v with
    | [k, w] => Except.ok (k, w)
    | _ => Except.error "could not unpack key=value pair")

/-- The `port_mapping` field: `parse_as_dict` followed by pydantic
coercion of each value to `int`. -/
def parsePortMapping (value : String) : Except String (List (String × Int)) :=
  match parse_as_dict value with
  | Except.error e => Except.error e
  | Except.ok pairs =>
      pairs.mapM (fun kv =>
        match pyInt kv.2 with
        | some n => Except.ok (kv.1, n)
        | none => Except.error "value is not a valid integer")

/-- The `[dbless]` ini section handed to `Config.parse_obj`: each of the
four fields, present or missing (configparser values are strings). -/
structure IniSection where
  image_name : Option String
  container_env : Option String
  port_mapping : Option String
  engine_url : Option String
deriving DecidableEq, Repr

/-- `Config.parse_obj` (src line 171) on an ini section: every field is
required, the two mapping fields go through `parse_as_dict`, port values
are coerced to int.  Pydantic reports all failures as one
ValidationError; we surface the first. -/
def Config.parse_obj (sec : IniSection) : Except String Config :=
  match sec.image_name, sec.container_env, sec.port_mapping, sec.engine_url with
  | some img, some envRaw, some pmRaw, some url =>
      (match parse_as_dict envRaw, parsePortMapping pmRaw with
       | Except.ok env, Except.ok pm =>
           Except.ok { image_name := img, container_env := env,
                       port_mapping := pm, engine_url := url }
       | Except.error e, _ => Except.error e
       | _, Except.error e => Except.error e)
  | none, _, _, _ => Except.error "image_name: field required"
  | _, none, _, _ => Except.error "container_env: field required"
  | _, _, none, _ => Except.error "port_mapping: field required"
  | _, _, _, none => Except.error "engine_url: field required"

/-- The relevant content of the alembic ini file: whether the `[dbless]`
section exists and its fields. -/
structure IniFile where
  hasDblessSection : Bool
  dblessSection : IniSection
deriving DecidableEq, Repr

/-- `ctx.obj` after the typer callback ran: the validated config and the
prepared alembic configuration. -/
structure CtxObj where
  config : Config
  alembic_cfg : AlembicCfg
deriving DecidableEq, Repr

/-- `initialize_alembic_cfg` (src lines 157-182), the typer callback that
runs before any command: require the `[dbless]` section, validate it into
a `Config` (ValidationError becomes a ClickException), overwrite the
`sqlalchemy.url` main option with the validated `engine_url`, and attach
a fresh `io.StringIO()` as the alembic stdout stream. -/
def initialize_alembic_cfg (ini : IniFile) : Except Err CtxObj :=
  if ¬ ini.hasDblessSection then
    Except.error (Err.clickException "Section `dbless` does not exist")
  else
    match Config.parse_obj ini.dblessSection with
    | Except.error e =>
        Except.error (Err.clickException ("Section `dbless` does not pass validation: " ++ e))
    | Except.ok config =>
        Except.ok { config := config,
                    alembic_cfg := { sqlalchemyUrl := config.engine_url,
                                     stdout := { content := "", pos := 0 } } }

/-- Result of an operation on the docker state: the Python return value or
raised exception, the docker state afterwards, and the external
operations performed. -/
structure OpResult where
  result : Except Err Unit
  docker : DockerState
  trace : List Event
deriving Repr

/-- First tags of the locally cached images:
`[i.tags[0] for i in client.images.list() if i.tags]` (src line 89). -/
def firstTags (images : List (List String)) : List String :=
  images.filterMap List.head?

/-- `ensure_image_exists` (src lines 85-90): pull the image unless its
identifier is the first tag of some cached image.  A successful pull
caches an image tagged with the identifier. -/
def ensure_image_exists (ext : Ext) (st : DockerState) (image_name : String) : OpResult :=
  if (firstTags st.images).contains image_name then
    { result := Except.ok (), docker := st, trace := [] }
  else
    match ext.imagePull with
    | Except.error e => { result := Except.error e, docker := st, trace := [Event.pull image_name] }
    | Except.ok _ =>
        { result := Except.ok (),
          docker := { st with images := [image_name] :: st.images },
          trace := [Event.pull image_name] }

/-- Mark the container with the reserved name as stopped
(`container.stop()`, src line 116). -/
def stopByName (cs : List DockerContainer) : List DockerContainer :=
  cs.map (fun c => if c.name == CONTAINER_NAME then { c with running := false } else c)

/-- Remove the container with the reserved name (`container.remove()`,
src line 117).  Container names are unique in the daemon, so removing by
name removes the one container `containers.get` returned. -/
def removeByName (cs : List DockerContainer) : List DockerContainer :=
  cs.filter (fun c => !(c.name == CONTAINER_NAME))

/-- `stop_container` (src lines 110-119): if a RUNNING container holds
the reserved name (`client.containers.list()` lists only running
containers), get it, stop it, remove it; otherwise print a note and do
nothing. -/
def stop_container (ext : Ext) (st : DockerState) : OpResult :=
  if (listRunning st).any (fun c => c.name == CONTAINER_NAME) then
    match ext.stopOp with
    | Except.error e =>
        { result := Except.error e, docker := st, trace := [Event.containerStop CONTAINER_NAME] }
    | Except.ok _ =>
        match ext.removeOp with
        | Except.error e =>
            { result := Except.error e,
              docker := { st with containers := stopByName st.containers },
              trace := [Event.containerStop CONTAINER_NAME] }
        | Except.ok _ =>
            { result := Except.ok (),
              docker := { st with containers := removeByName (stopByName st.containers) },
              trace := [Event.containerStop CONTAINER_NAME, Event.containerRemove CONTAINER_NAME] }
  else
    { result := Except.ok (), docker := st, trace := [] }

/-- `run_container` (src lines 93-107): if a RUNNING container holds the
reserved name, call `stop_container` first; then
`client.containers.run(image, name=CONTAINER_NAME, detach=True, ...)`,
which raises a 409 name conflict when any container - running or stopped -
still holds the name, raises on runtime rejection, and otherwise starts a
new running container under the reserved name. -/
def run_container (ext : Ext) (st : DockerState) (image_name : String)
    (env : List (String × String)) (ports : List (String × Int)) : OpResult :=
  let pre : OpResult :=
    if (listRunning st).any (fun c => c.name == CONTAINER_NAME) then stop_container ext st
    else { result := Except.ok (), docker := st, trace := [] }
  match pre.result with
  | Except.error e => { result := Except.error e, docker := pre.docker, trace := pre.trace }
  | Except.ok _ =>
      if pre.docker.containers.any (fun c => c.name == CONTAINER_NAME) then
        { result := Except.error Err.nameConflict, docker := pre.docker,
          trace := pre.trace ++ [Event.containerRun image_name] }
      else
        match ext.runtimeRun with
        | Except.error e =>
            { result := Except.error e, docker := pre.docker,
              trace := pre.trace ++ [Event.containerRun image_name] }
        | Except.ok _ =>
            { result := Except.ok (),
              docker := { pre.docker with
                          containers := { name := CONTAINER_NAME, running := true }
                            :: pre.docker.containers },
              trace := pre.trace ++ [Event.containerRun image_name] }

/-- Result of `wait_for_db_connection`: the return/raise outcome, the
seconds elapsed since loop start when it returned, the number of probe
attempts made, and the trace. -/
structure WaitResult where
  result : Except Err Unit
  elapsed : Nat
  attempts : Nat
  trace : List Event
deriving Repr

/-- The `while time.monotonic() - start_time < timeout` loop of
`wait_for_db_connection` (src lines 125-136), carried by the remaining
budget `timeout - elapsed`: each failing attempt sleeps one second, so
the fuel drops by one per iteration; `attempt` and `elapsed` count the
probes made and the seconds elapsed so far.  A successful probe breaks
out at once; an `OperationalError` sleeps and retries; any other
exception propagates; an exhausted budget falls out of the loop
RETURNING NORMALLY - the function has no timeout error path. -/
def waitAux (probe : Nat → ProbeOutcome) (url : String) (attempt elapsed : Nat) :
    Nat → WaitResult
  | 0 => { result := Except.ok (), elapsed := elapsed, attempts := attempt, trace := [] }
  | fuel + 1 =>
      match probe attempt with
      | ProbeOutcome.success =>
          { result := Except.ok (), elapsed := elapsed, attempts := attempt + 1,
            trace := [Event.probeAttempt url] }
      | ProbeOutcome.fatal e =>
          { result := Except.error e, elapsed := elapsed, attempts := attempt + 1,
            trace := [Event.probeAttempt url] }
      | ProbeOutcome.unreachable =>
          let w := waitAux probe url (attempt + 1) (elapsed + 1) fuel
          { result := w.result, elapsed := w.elapsed, attempts := w.attempts,
            trace := Event.probeAttempt url :: Event.sleepSec 1 :: w.trace }

/-- `wait_for_db_connection(engine_url, timeout)` (src lines 122-136). -/
def wait_for_db_connection (probe : Nat → ProbeOutcome) (engine_url : String)
    (timeout : Nat) : WaitResult :=
  waitAux probe engine_url 0 0 timeout

/-- Result of `upgrade_database`: outcome, the alembic configuration with
its mutated stdout buffer, and the trace. -/
structure UpgradeResult where
  result : Except Err Unit
  cfg : AlembicCfg
  trace : List Event
deriving Repr

/-- `upgrade_database` (src lines 139-148): `command.current(alembic_cfg)`
prints the current migration history heads (nothing when the history is
empty) to `alembic_cfg.stdout`; the code then calls
`alembic_cfg.stdout.readline()` AT THE POSITION THE WRITE LEFT, aborts
with `typer.Abort()` when the line is non-empty, and otherwise runs
`command.upgrade(alembic_cfg, "head")`. -/
def upgrade_database (ext : Ext) (cfg : AlembicCfg) : UpgradeResult :=
  let io1 := cfg.stdout.write ext.currentOutput
  let r := io1.readline
  let cfg2 : AlembicCfg := { cfg with stdout := r.2 }
  if r.1 ≠ "" then
    { result := Except.error Err.abort, cfg := cfg2,
      trace := [Event.alembicCurrent cfg.sqlalchemyUrl] }
  else
    match ext.upgradeOutcome with
    | Except.error e =>
        { result := Except.error e, cfg := cfg2,
          trace := [Event.alembicCurrent cfg.sqlalchemyUrl,
                    Event.alembicUpgrade cfg.sqlalchemyUrl "head"] }
    | Except.ok _ =>
        { result := Except.ok (), cfg := cfg2,
          trace := [Event.alembicCurrent cfg.sqlalchemyUrl,
                    Event.alembicUpgrade cfg.sqlalchemyUrl "head"] }

/-- Result of `create_migration`: outcome and trace (the alembic
configuration is not mutated in any way the flows observe). -/
structure RevisionResult where
  result : Except Err Unit
  trace : List Event
deriving Repr

/-- `create_migration` (src lines 151-154):
`command.revision(alembic_cfg, autogenerate=True, message=message)`. -/
def create_migration (ext : Ext) (cfg : AlembicCfg) (message : String) : RevisionResult :=
  { result := ext.revisionOutcome,
    trace := [Event.alembicRevision cfg.sqlalchemyUrl message] }

/-- Result of the `start` command: outcome, docker state, the alembic
configuration afterwards, and the full trace. -/
structure StartResult where
  result : Except Err Unit
  docker : DockerState
  cfg : AlembicCfg
  trace : List Event
deriving Repr

/-- The `start` command (src lines 185-197): `ensure_image_exists`, then
`run_container`, then `wait_for_db_connection(engine_url, timeout=60)`,
then `upgrade_database(ctx.obj["alembic_cfg"])`; any raised exception
propagates and aborts the rest; `start` installs no cleanup of its own. -/
def start (ext : Ext) (ctx : CtxObj) (st : DockerState) : StartResult :=
  match ensure_image_exists ext st ctx.config.image_name with
  | { result := Except.error e, docker := d1, trace := t1 } =>
      { result := Except.error e, docker := d1, cfg := ctx.alembic_cfg, trace := t1 }
  | { result := Except.ok _, docker := d1, trace := t1 } =>
      match run_container ext d1 ctx.config.image_name ctx.config.container_env
          ctx.config.port_mapping with
      | { result := Except.error e, docker := d2, trace := t2 } =>
          { result := Except.error e, docker := d2, cfg := ctx.alembic_cfg, trace := t1 ++ t2 }
      | { result := Except.ok _, docker := d2, trace := t2 } =>
          match wait_for_db_connection ext.probe ctx.config.engine_url 60 with
          | { result := Except.error e, elapsed := _, attempts := _, trace := t3 } =>
              { result := Except.error e, docker := d2, cfg := ctx.alembic_cfg,
                trace := t1 ++ t2 ++ t3 }
          | { result := Except.ok _, elapsed := _, attempts := _, trace := t3 } =>
              match upgrade_database ext ctx.alembic_cfg with
              | { result := r, cfg := cfg4, trace := t4 } =>
                  { result := r, docker := d2, cfg := cfg4,
                    trace := t1 ++ t2 ++ t3 ++ t4 }

/-- The `stop` command (src lines 200-202): delegates to `stop_container`. -/
def stop (ext : Ext) (st : DockerState) : OpResult :=
  stop_container ext st

/-- An error surfaced by `auto`: the exception that propagates to the
caller plus, per Python exception chaining, the exception that was in
flight when it was raised (its dunder context), when there was one. -/
structure AutoErr where
  err : Err
  context : Option Err
deriving DecidableEq, Repr

/-- Result of the `auto` command. -/
structure AutoResult where
  result : Except AutoErr Unit
  docker : DockerState
  trace : List Event
deriving Repr

/-- The `auto` command (src lines 205-217): `try: start(ctx);
create_migration(alembic_cfg, message) finally: stop()`.  The finally
block runs on every exit path.  When the body raised and `stop()`
returns normally, the body exception propagates unchanged; when `stop()`
itself raises, its exception propagates carrying the body exception (if
any) as its context. -/
def auto (ext : Ext) (ctx : CtxObj) (st : DockerState) (message : String) : AutoResult :=
  match start ext ctx st with
  | { result := Except.ok _, docker := d, cfg := cfg, trace := tr } =>
      let m := create_migration ext cfg message
      let c := stop ext d
      match m.result, c.result with
      | Except.ok _, Except.ok _ =>
          { result := Except.ok (), docker := c.docker, trace := tr ++ m.trace ++ c.trace }
      | Except.ok _, Except.error e2 =>
          { result := Except.error { err := e2, context := none }, docker := c.docker,
            trace := tr ++ m.trace ++ c.trace }
      | Except.error e, Except.ok _ =>
          { result := Except.error { err := e, context := none }, docker := c.docker,
            trace := tr ++ m.trace ++ c.trace }
      | Except.error e, Except.error e2 =>
          { result := Except.error { err := e2, context := some e }, docker := c.docker,
            trace := tr ++ m.trace ++ c.trace }
  | { result := Except.error e, docker := d, cfg := cfg, trace := tr } =>
      let c := stop ext d
      match c.result with
      | Except.ok _ =>
          { result := Except.error { err := e, context := none }, docker := c.docker,
            trace := tr ++ c.trace }
      | Except.error e2 =>
          { result := Except.error { err := e2, context := some e }, docker := c.docker,
            trace := tr ++ c.trace }

/-! ### Concrete fixtures and small computation lemmas -/

/-- External behaviour in which every delegated operation succeeds, the
probe connects at once, and the migration history is empty. -/
def extAllOk : Ext :=
  { imagePull := Except.ok (), runtimeRun := Except.ok (), stopOp := Except.ok (),
    removeOp := Except.ok (), probe := fun _ => ProbeOutcome.success,
    currentOutput := "", upgradeOutcome := Except.ok (), revisionOutcome := Except.ok () }

/-- External behaviour identical to `extAllOk` except that the migration
history is non-empty: `alembic current` prints one revision line. -/
def extHist : Ext := { extAllOk with currentOutput := "abc123 (head)\n" }

lemma write_empty_on_fresh : StringIOBuf.write { content := "", pos := 0 } "" = { content := "", pos := 0 } := by
  decide

lemma readline_on_fresh : StringIOBuf.readline { content := "", pos := 0 } = ("", { content := "", pos := 0 }) := by
  decide

/-! ### C1 - the already-migrated guard against a non-empty history -/

/-- C1: REFUTED, code bug.  The claim says that on a target whose
migration history is non-empty, `upgrade_database` signals
AlreadyMigratedError (`typer.Abort`) and never invokes `upgrade`.  In the
code, `command.current` writes the history line into the fresh `StringIO`
attached by `initialize_alembic_cfg`, which leaves the stream position at
the END of the buffer; the subsequent `readline()` therefore returns ""
regardless of what was written, the guard never trips, and
`command.upgrade(cfg, "head")` runs anyway.  Here the history query
prints the line "abc123 (head)" (14 characters with the newline), yet
the result is success and the trace contains the upgrade invocation. -/
theorem upgrade_database_runs_despite_history :
    upgrade_database extHist { sqlalchemyUrl := "db://x", stdout := { content := "", pos := 0 } } =
      { result := Except.ok (),
        cfg := { sqlalchemyUrl := "db://x",
                 stdout := { content := "abc123 (head)\n", pos := 14 } },
        trace := [Event.alembicCurrent "db://x", Event.alembicUpgrade "db://x" "head"] } := by
  rfl

/-! ### C6 - upgrade on an empty history -/

/-- C6: on a target whose migration history query reports nothing (the
`alembic current` output is empty) and whose stdout stream is the fresh
buffer `initialize_alembic_cfg` attached, `upgrade_database` invokes the
engine upgrade exactly once, targeting revision "head", and returns
success when the engine reports no error.  The trace equality shows the
single upgrade invocation and its target revision. -/
theorem checkAndApply_empty_history (ext : Ext) (cfg : AlembicCfg)
    (hfresh : cfg.stdout = { content := "", pos := 0 })
    (hcur : ext.currentOutput = "")
    (hok : ext.upgradeOutcome = Except.ok ()) :
    upgrade_database ext cfg =
      { result := Except.ok (), cfg := cfg,
        trace := [Event.alembicCurrent cfg.sqlalchemyUrl,
                  Event.alembicUpgrade cfg.sqlalchemyUrl "head"] } := by
  obtain ⟨url, io⟩ := cfg
  simp only at hfresh
  subst hfresh
  simp [upgrade_database, hcur, hok, write_empty_on_fresh, readline_on_fresh]

/-- Witness for C6 at a concrete configuration. -/
theorem checkAndApply_empty_history_witness :
    upgrade_database extAllOk { sqlalchemyUrl := "db://w", stdout := { content := "", pos := 0 } } =
      { result := Except.ok (),
        cfg := { sqlalchemyUrl := "db://w", stdout := { content := "", pos := 0 } },
        trace := [Event.alembicCurrent "db://w", Event.alembicUpgrade "db://w" "head"] } :=
  checkAndApply_empty_history extAllOk
    { sqlalchemyUrl := "db://w", stdout := { content := "", pos := 0 } } rfl rfl rfl

/-! ### C8 - pull exactly when the image is not cached under its first tag -/

/-- C8 (amended): `ensure_image_exists` triggers a pull if and only if
the image identifier is not the FIRST tag of any locally cached image
(the code inspects `i.tags[0]` only, src line 89); an image cached under
the identifier as a secondary tag is pulled again. -/
theorem ensureImage_pulls_iff_first_tag_missing (ext : Ext) (st : DockerState)
    (image_name : String) :
    (ensure_image_exists ext st image_name).trace =
      (if (firstTags st.images).contains image_name then [] else [Event.pull image_name]) := by
  unfold ensure_image_exists
  split
  · rfl
  · cases h : ext.imagePull <;> simp [h]

/-- Counterexample to C8 as stated: the image is locally cached under the
identifier "db:latest" (it appears in the tag list of a cached image),
yet `ensure_image_exists` still triggers a pull, because "db:latest" is
not the first tag. -/
theorem ensureImage_repulls_cached_secondary_tag :
    (ensure_image_exists extAllOk
        { images := [["other:latest", "db:latest"]], containers := [] } "db:latest").trace
      = [Event.pull "db:latest"] ∧
    "db:latest" ∈ (["other:latest", "db:latest"] : List String) := by
  exact ⟨rfl, by simp⟩

/-! ### Helper lemmas about the docker-state operations -/

lemma removeByName_no_dbless (cs : List DockerContainer) :
    ∀ c ∈ removeByName cs, ¬ c.name = CONTAINER_NAME := by
  intro c hc
  simp only [removeByName, List.mem_filter] at hc
  simpa using hc.2

lemma removeByName_any_false (cs : List DockerContainer) :
    (removeByName cs).any (fun c => c.name == CONTAINER_NAME) = false := by
  rw [List.any_eq_false]
  intro c hc
  simpa using removeByName_no_dbless cs c hc

lemma removeByName_filter_nil (cs : List DockerContainer) :
    (removeByName cs).filter (fun c => c.name == CONTAINER_NAME) = [] := by
  rw [List.filter_eq_nil_iff]
  intro c hc
  simpa using removeByName_no_dbless cs c hc

/-! ### C5 - stop: no-op when nothing is running, stop and remove otherwise -/

/-- C5 (amended): `stop_container` is a success-returning no-op (no
container mutation, no runtime calls) whenever no RUNNING container
holds the reserved name - in particular when no container holds it at
all; when a running container holds the name and the runtime stop and
remove succeed, it stops it and then removes it, leaving no container
with the reserved name.  (A STOPPED container holding the name is
invisible to `client.containers.list()`, so it falls under the no-op
case - see the counterexample for the original claim.) -/
theorem stop_container_noop_or_removes (ext : Ext) (st : DockerState) :
    ((∀ c ∈ st.containers, c.name = CONTAINER_NAME → c.running = false) →
      stop_container ext st = { result := Except.ok (), docker := st, trace := [] }) ∧
    (∀ c ∈ st.containers, c.name = CONTAINER_NAME → c.running = true →
      ext.stopOp = Except.ok () → ext.removeOp = Except.ok () →
      (stop_container ext st).result = Except.ok () ∧
      (∀ c2 ∈ (stop_container ext st).docker.containers, ¬ c2.name = CONTAINER_NAME) ∧
      (stop_container ext st).trace =
        [Event.containerStop CONTAINER_NAME, Event.containerRemove CONTAINER_NAME]) := by
  constructor
  · intro h
    have hcond : (listRunning st).any (fun c => c.name == CONTAINER_NAME) = false := by
      rw [List.any_eq_false]
      intro c hc
      simp only [listRunning, List.mem_filter] at hc
      obtain ⟨hc1, hc2⟩ := hc
      simp only [beq_iff_eq]
      intro hname
      exact absurd hc2 (by simp [h c hc1 hname])
    simp [stop_container, hcond]
  · intro c hc hname hrun hstop hremove
    have hcond : (listRunning st).any (fun c => c.name == CONTAINER_NAME) = true := by
      rw [List.any_eq_true]
      exact ⟨c, by simp [listRunning, List.mem_filter, hc, hrun], by simp [hname]⟩
    refine ⟨by simp [stop_container, hcond, hstop, hremove], ?_, by simp [stop_container, hcond, hstop, hremove]⟩
    intro c2 hc2
    simp only [stop_container, hcond, if_true, hstop, hremove] at hc2
    exact removeByName_no_dbless _ c2 hc2

/-- Witness for C5 at a concrete runtime state with one running
container under the reserved name. -/
theorem stop_container_noop_or_removes_witness :
    (stop_container extAllOk { images := [], containers := [{ name := CONTAINER_NAME, running := true }] }).result = Except.ok () ∧
    (∀ c2 ∈ (stop_container extAllOk { images := [], containers := [{ name := CONTAINER_NAME, running := true }] }).docker.containers,
      ¬ c2.name = CONTAINER_NAME) ∧
    (stop_container extAllOk { images := [], containers := [{ name := CONTAINER_NAME, running := true }] }).trace =
      [Event.containerStop CONTAINER_NAME, Event.containerRemove CONTAINER_NAME] :=
  (stop_container_noop_or_removes extAllOk
      { images := [], containers := [{ name := CONTAINER_NAME, running := true }] }).2
    { name := CONTAINER_NAME, running := true } (by simp) rfl rfl rfl rfl

/-- Counterexample to C5 as stated: a STOPPED container with the
reserved name exists in the runtime, yet `stop_container` neither stops
nor removes it - `client.containers.list()` lists only running
containers, so the code takes the no-op branch and the container is
still present afterwards. -/
theorem stop_container_ignores_stopped_container :
    stop_container extAllOk { images := [], containers := [{ name := "dbless", running := false }] } =
      { result := Except.ok (),
        docker := { images := [], containers := [{ name := "dbless", running := false }] },
        trace := [] } ∧
    DockerContainer.mk "dbless" false ∈
      (stop_container extAllOk { images := [], containers := [{ name := "dbless", running := false }] }).docker.containers := by
  exact ⟨rfl, by decide⟩

/-! ### C3 - run replaces an existing container under the reserved name -/

/-- C3 (amended): when a RUNNING container holds the reserved name and
the delegated stop, remove and run operations succeed, `run_container`
first stops and removes the old container and then starts a new one,
leaving exactly one container with the reserved name, and it does not
fail merely because the running container existed.  (A STOPPED container
under the name is not replaced: the code only consults
`client.containers.list()`, which lists running containers, and the
subsequent `containers.run` then fails with a name conflict - see the
counterexample.) -/
theorem run_container_replaces_running (ext : Ext) (st : DockerState)
    (image_name : String) (env : List (String × String)) (ports : List (String × Int))
    (hmem : DockerContainer.mk CONTAINER_NAME true ∈ st.containers)
    (hstop : ext.stopOp = Except.ok ()) (hremove : ext.removeOp = Except.ok ())
    (hrun : ext.runtimeRun = Except.ok ()) :
    (run_container ext st image_name env ports).result = Except.ok () ∧
    (run_container ext st image_name env ports).docker.containers.filter
        (fun c => c.name == CONTAINER_NAME) = [{ name := CONTAINER_NAME, running := true }] ∧
    (run_container ext st image_name env ports).trace =
      [Event.containerStop CONTAINER_NAME, Event.containerRemove CONTAINER_NAME,
       Event.containerRun image_name] := by
  have hcond : (listRunning st).any (fun c => c.name == CONTAINER_NAME) = true := by
    rw [List.any_eq_true]
    exact ⟨{ name := CONTAINER_NAME, running := true },
      by simp [listRunning, List.mem_filter, hmem], by simp⟩
  refine ⟨?_, ?_, ?_⟩ <;>
    simp [run_container, stop_container, hcond, hstop, hremove, hrun,
      removeByName_any_false, removeByName_filter_nil, List.filter_cons]

/-- Witness for C3 at a concrete runtime state with one running
container under the reserved name. -/
theorem run_container_replaces_running_witness :
    (run_container extAllOk { images := [], containers := [{ name := CONTAINER_NAME, running := true }] }
        "db:latest" [] []).result = Except.ok () ∧
    (run_container extAllOk { images := [], containers := [{ name := CONTAINER_NAME, running := true }] }
        "db:latest" [] []).docker.containers.filter
        (fun c => c.name == CONTAINER_NAME) = [{ name := CONTAINER_NAME, running := true }] ∧
    (run_container extAllOk { images := [], containers := [{ name := CONTAINER_NAME, running := true }] }
        "db:latest" [] []).trace =
      [Event.containerStop CONTAINER_NAME, Event.containerRemove CONTAINER_NAME,
       Event.containerRun "db:latest"] :=
  run_container_replaces_running extAllOk
    { images := [], containers := [{ name := CONTAINER_NAME, running := true }] }
    "db:latest" [] [] (by simp) rfl rfl rfl

/-- Counterexample to C3 as stated: a STOPPED container with the
reserved name exists, every delegated operation would succeed, yet
`run_container` fails with the docker name conflict and leaves the old
container in place - it fails merely because a (stopped) container with
the name already existed. -/
theorem run_container_conflicts_with_stopped :
    run_container extAllOk { images := [], containers := [{ name := "dbless", running := false }] }
        "db:latest" [] [] =
      { result := Except.error Err.nameConflict,
        docker := { images := [], containers := [{ name := "dbless", running := false }] },
        trace := [Event.containerRun "db:latest"] } := by
  rfl

/-! ### C2 - the readiness wait loop -/

lemma waitAux_all_unreachable (probe : Nat → ProbeOutcome) (url : String)
    (h : ∀ n, probe n = ProbeOutcome.unreachable) :
    ∀ fuel attempt elapsed,
      (waitAux probe url attempt elapsed fuel).result = Except.ok () ∧
      (waitAux probe url attempt elapsed fuel).elapsed = elapsed + fuel ∧
      (waitAux probe url attempt elapsed fuel).attempts = attempt + fuel := by
  intro fuel
  induction fuel with
  | zero => intro a e; simp [waitAux]
  | succ f ih =>
      intro a e
      have ih1 := ih (a + 1) (e + 1)
      simp only [waitAux, h a]
      exact ⟨ih1.1, by rw [ih1.2.1]; omega, by rw [ih1.2.2]; omega⟩

lemma waitAux_success_at (probe : Nat → ProbeOutcome) (url : String) :
    ∀ fuel attempt elapsed k,
      k < fuel →
      (∀ n, n < k → probe (attempt + n) = ProbeOutcome.unreachable) →
      probe (attempt + k) = ProbeOutcome.success →
      (waitAux probe url attempt elapsed fuel).result = Except.ok () ∧
      (waitAux probe url attempt elapsed fuel).elapsed = elapsed + k ∧
      (waitAux probe url attempt elapsed fuel).attempts = attempt + k + 1 := by
  intro fuel
  induction fuel with
  | zero => intro a e k hk hbefore hsucc; exact absurd hk (by omega)
  | succ f ih =>
      intro a e k hk hbefore hsucc
      cases k with
      | zero =>
          have hpa : probe a = ProbeOutcome.success := by simpa using hsucc
          refine ⟨by simp [waitAux, hpa], by simp [waitAux, hpa], by simp [waitAux, hpa]⟩
      | succ j =>
          have hpa : probe a = ProbeOutcome.unreachable := by
            simpa using hbefore 0 (by omega)
          have ihj := ih (a + 1) (e + 1) j (by omega)
            (fun n hn => by
              have h2 : a + 1 + n = a + (n + 1) := by omega
              rw [h2]
              exact hbefore (n + 1) (by omega))
            (by
              have h2 : a + 1 + j = a + (j + 1) := by omega
              rw [h2]
              exact hsucc)
          simp only [waitAux, hpa]
          exact ⟨ihj.1, by rw [ihj.2.1]; omega, by rw [ihj.2.2]; omega⟩

/-- C2 (amended): against a probe that always reports Unreachable,
`wait_for_db_connection(url, timeout=T)` RETURNS NORMALLY - the function
has no timeout error path, it simply falls out of the loop - after at
least T and strictly less than T plus one poll interval (one second) of
elapsed time since the first attempt; a probe success at any attempt
inside the budget makes it return success immediately, with exactly that
many probe calls. -/
theorem wait_timeout_and_success (probe : Nat → ProbeOutcome) (url : String) (T : Nat) :
    ((∀ n, probe n = ProbeOutcome.unreachable) →
      (wait_for_db_connection probe url T).result = Except.ok () ∧
      T ≤ (wait_for_db_connection probe url T).elapsed ∧
      (wait_for_db_connection probe url T).elapsed < T + 1) ∧
    (∀ k, k < T → (∀ n, n < k → probe n = ProbeOutcome.unreachable) →
      probe k = ProbeOutcome.success →
      (wait_for_db_connection probe url T).result = Except.ok () ∧
      (wait_for_db_connection probe url T).elapsed = k ∧
      (wait_for_db_connection probe url T).attempts = k + 1) := by
  constructor
  · intro h
    have := waitAux_all_unreachable probe url h T 0 0
    exact ⟨this.1, by rw [show (wait_for_db_connection probe url T).elapsed = (waitAux probe url 0 0 T).elapsed from rfl, this.2.1]; omega,
      by rw [show (wait_for_db_connection probe url T).elapsed = (waitAux probe url 0 0 T).elapsed from rfl, this.2.1]; omega⟩
  · intro k hk hbefore hsucc
    have := waitAux_success_at probe url T 0 0 k hk
      (fun n hn => by simpa using hbefore n hn) (by simpa using hsucc)
    exact ⟨this.1, by rw [show (wait_for_db_connection probe url T).elapsed = (waitAux probe url 0 0 T).elapsed from rfl, this.2.1]; omega,
      by rw [show (wait_for_db_connection probe url T).attempts = (waitAux probe url 0 0 T).attempts from rfl, this.2.2]; omega⟩

/-- A probe that never connects. -/
def alwaysDown : Nat → ProbeOutcome := fun _ => ProbeOutcome.unreachable

/-- Witness for C2: with an always-unreachable probe and a three-second
budget, the wait returns normally with elapsed time exactly in [3, 4). -/
theorem wait_timeout_and_success_witness :
    (wait_for_db_connection alwaysDown "db://x" 3).result = Except.ok () ∧
    3 ≤ (wait_for_db_connection alwaysDown "db://x" 3).elapsed ∧
    (wait_for_db_connection alwaysDown "db://x" 3).elapsed < 3 + 1 :=
  (wait_timeout_and_success alwaysDown "db://x" 3).1 (fun _ => rfl)

/-- Counterexample to C2 as stated: against an always-unreachable probe
with a two-second budget, `wait_for_db_connection` does NOT return any
TimeoutExceeded error - no timeout error exists anywhere in the module -
it returns normally (as if successful) after the budget elapses, and the
caller proceeds.  The full evaluation shows the normal return after two
failed attempts. -/
theorem wait_returns_normally_on_timeout :
    wait_for_db_connection alwaysDown "db://x" 2 =
      { result := Except.ok (), elapsed := 2, attempts := 2,
        trace := [Event.probeAttempt "db://x", Event.sleepSec 1,
                  Event.probeAttempt "db://x", Event.sleepSec 1] } := by
  rfl

/-! ### C9 - what configuration parsing accepts and rejects -/

/-- C9 (amended): with all four fields present, parsing fails fast with a
configuration error (`click.ClickException`, so no flow runs) whenever
the env or port mapping is a malformed key=value;key=value encoding; and
what it accepts is exactly the decoded fields - pydantic enforces NO
non-emptiness on the string fields and NO positivity on port values (see
the counterexample). -/
theorem config_validation (img env pm url : String) :
    ((∃ msg, parse_as_dict env = Except.error msg) ∨
     (∃ msg, parsePortMapping pm = Except.error msg) →
      ∃ m, initialize_alembic_cfg
          { hasDblessSection := true,
            dblessSection := { image_name := some img, container_env := some env,
                               port_mapping := some pm, engine_url := some url } } =
        Except.error (Err.clickException m)) ∧
    (∀ c, Config.parse_obj { image_name := some img, container_env := some env,
                             port_mapping := some pm, engine_url := some url } = Except.ok c →
      c.image_name = img ∧ c.engine_url = url ∧
      parse_as_dict env = Except.ok c.container_env ∧
      parsePortMapping pm = Except.ok c.port_mapping) := by
  cases h1 : parse_as_dict env with
  | error m1 =>
      constructor
      · intro _
        exact ⟨"Section `dbless` does not pass validation: " ++ m1,
          by simp [initialize_alembic_cfg, Config.parse_obj, h1]⟩
      · intro c hc
        simp [Config.parse_obj, h1] at hc
  | ok env2 =>
      cases h2 : parsePortMapping pm with
      | error m2 =>
          constructor
          · intro _
            exact ⟨"Section `dbless` does not pass validation: " ++ m2,
              by simp [initialize_alembic_cfg, Config.parse_obj, h1, h2]⟩
          · intro c hc
            simp [Config.parse_obj, h1, h2] at hc
      | ok pm2 =>
          constructor
          · rintro (⟨m, hm⟩ | ⟨m, hm⟩)
            · simp at hm
            · simp at hm
          · intro c hc
            simp only [Config.parse_obj, h1, h2] at hc
            cases hc
            simp

/-- Witness for C9: a malformed env encoding (no "=" separator) is
rejected before any flow runs. -/
theorem config_validation_witness :
    ∃ m, initialize_alembic_cfg
        { hasDblessSection := true,
          dblessSection := { image_name := some "db:latest", container_env := some "BAD",
                             port_mapping := some "5432=5432", engine_url := some "db://w" } } =
      Except.error (Err.clickException m) :=
  (config_validation "db:latest" "BAD" "5432=5432" "db://w").1
    (Or.inl ⟨"could not unpack key=value pair", rfl⟩)

/-- Counterexample to C9 as stated: parsing ACCEPTS a configuration with
an empty image name, an empty engine url, and a port value of 0 - no
non-emptiness or positivity invariant is enforced anywhere in the code. -/
theorem config_accepts_empty_and_nonpositive :
    initialize_alembic_cfg
        { hasDblessSection := true,
          dblessSection := { image_name := some "", container_env := some "",
                             port_mapping := some "p=0", engine_url := some "" } } =
      Except.ok { config := { image_name := "", container_env := [],
                              port_mapping := [("p", 0)], engine_url := "" },
                  alembic_cfg := { sqlalchemyUrl := "",
                                   stdout := { content := "", pos := 0 } } } := by
  rfl

/-! ### C4 - the auto flow's guaranteed cleanup -/

/-- C4: in `auto`, the cleanup `stop()` executes on every exit path (the
final docker state is always the one `stop` produces from the state the
body left, and the cleanup's operations close the trace); when an
earlier step failed and cleanup succeeds, the original error is the one
surfaced to the caller, after cleanup completed; when the cleanup stop
itself also fails, its error propagates CARRYING the original error as
its exception context (Python exception chaining), so the original error
is reported alongside rather than lost. -/
theorem auto_cleanup_guarantee (ext : Ext) (ctx : CtxObj) (st : DockerState)
    (message : String) :
    ((auto ext ctx st message).docker = (stop ext (start ext ctx st).docker).docker) ∧
    (∃ pre, (auto ext ctx st message).trace = pre ++ (stop ext (start ext ctx st).docker).trace) ∧
    (∀ e, (start ext ctx st).result = Except.error e →
      (stop ext (start ext ctx st).docker).result = Except.ok () →
      (auto ext ctx st message).result = Except.error { err := e, context := none }) ∧
    (∀ e e2, (start ext ctx st).result = Except.error e →
      (stop ext (start ext ctx st).docker).result = Except.error e2 →
      (auto ext ctx st message).result = Except.error { err := e2, context := some e }) ∧
    (∀ e, (start ext ctx st).result = Except.ok () → ext.revisionOutcome = Except.error e →
      (stop ext (start ext ctx st).docker).result = Except.ok () →
      (auto ext ctx st message).result = Except.error { err := e, context := none }) ∧
    (∀ e e2, (start ext ctx st).result = Except.ok () → ext.revisionOutcome = Except.error e →
      (stop ext (start ext ctx st).docker).result = Except.error e2 →
      (auto ext ctx st message).result = Except.error { err := e2, context := some e }) := by
  rcases hS : start ext ctx st with ⟨r, d, cfg, tr⟩
  rcases hC : stop ext d with ⟨r2, d2, tr2⟩
  cases r with
  | error e0 =>
      cases r2 with
      | error e2 =>
          refine ⟨?_, ⟨tr, ?_⟩, ?_, ?_, ?_, ?_⟩ <;>
            simp [auto, hS, hC, create_migration]
      | ok u2 =>
          cases u2
          refine ⟨?_, ⟨tr, ?_⟩, ?_, ?_, ?_, ?_⟩ <;>
            simp [auto, hS, hC, create_migration]
  | ok u =>
      cases u
      cases hR : ext.revisionOutcome with
      | error er =>
          cases r2 with
          | error e2 =>
              refine ⟨?_, ⟨tr ++ [Event.alembicRevision cfg.sqlalchemyUrl message], ?_⟩,
                ?_, ?_, ?_, ?_⟩ <;>
                simp [auto, hS, hC, hR, create_migration]
          | ok u2 =>
              cases u2
              refine ⟨?_, ⟨tr ++ [Event.alembicRevision cfg.sqlalchemyUrl message], ?_⟩,
                ?_, ?_, ?_, ?_⟩ <;>
                simp [auto, hS, hC, hR, create_migration]
      | ok u3 =>
          cases u3
          cases r2 with
          | error e2 =>
              refine ⟨?_, ⟨tr ++ [Event.alembicRevision cfg.sqlalchemyUrl message], ?_⟩,
                ?_, ?_, ?_, ?_⟩ <;>
                simp [auto, hS, hC, hR, create_migration]
          | ok u2 =>
              cases u2
              refine ⟨?_, ⟨tr ++ [Event.alembicRevision cfg.sqlalchemyUrl message], ?_⟩,
                ?_, ?_, ?_, ?_⟩ <;>
                simp [auto, hS, hC, hR, create_migration]

/-- A context as produced by `initialize_alembic_cfg` on a typical ini
file (see `iniW`). -/
def ctxW : CtxObj :=
  { config := { image_name := "db:latest", container_env := [("PASS", "x")],
                port_mapping := [("5432", 5432)], engine_url := "db://w" },
    alembic_cfg := { sqlalchemyUrl := "db://w", stdout := { content := "", pos := 0 } } }

/-- External behaviour in which the image pull fails and the runtime
refuses to stop the container during cleanup. -/
def extDoubleFail : Ext :=
  { extAllOk with imagePull := Except.error (Err.imagePullError "net down"),
                  stopOp := Except.error (Err.containerStopError "stop failed") }

/-- A runtime state with one running container under the reserved name. -/
def stRunning : DockerState :=
  { images := [], containers := [{ name := CONTAINER_NAME, running := true }] }

/-- Witness for C4: the image pull fails, the cleanup stop also fails;
`auto` surfaces the cleanup error carrying the pull error as context -
both are reported, neither masks the other into silence. -/
theorem auto_cleanup_guarantee_witness :
    (auto extDoubleFail ctxW stRunning "add users table").result =
      Except.error { err := Err.containerStopError "stop failed",
                     context := some (Err.imagePullError "net down") } :=
  (auto_cleanup_guarantee extDoubleFail ctxW stRunning "add users table").2.2.2.1
    (Err.imagePullError "net down") (Err.containerStopError "stop failed") rfl rfl

/-! ### C7 - start propagates failures and performs no cleanup -/

lemma run_container_ok_running (ext : Ext) (st : DockerState) (image_name : String)
    (env : List (String × String)) (ports : List (String × Int)) :
    (run_container ext st image_name env ports).result = Except.ok () →
    DockerContainer.mk CONTAINER_NAME true ∈
      (run_container ext st image_name env ports).docker.containers := by
  intro h
  unfold run_container at h ⊢
  cases hc : (listRunning st).any (fun c => c.name == CONTAINER_NAME) with
  | false =>
      simp only [hc, Bool.false_eq_true, if_false] at h ⊢
      cases hc2 : st.containers.any (fun c => c.name == CONTAINER_NAME) with
      | true => simp [hc2] at h
      | false =>
          simp only [hc2, Bool.false_eq_true, if_false] at h ⊢
          cases hr : ext.runtimeRun with
          | error e => simp [hr] at h
          | ok u => simp [hr]
  | true =>
      simp only [hc, if_true] at h ⊢
      rcases hs : stop_container ext st with ⟨r1, d1, t1⟩
      rw [hs] at h
      cases r1 with
      | error e => simp at h
      | ok u =>
          cases hc2 : d1.containers.any (fun c => c.name == CONTAINER_NAME) with
          | true =>
              have hex : ∃ x ∈ d1.containers, x.name = CONTAINER_NAME := by
                rcases List.any_eq_true.mp hc2 with ⟨x, hx, hpx⟩
                exact ⟨x, hx, by simpa using hpx⟩
              simp [hex, hc2] at h
          | false =>
              have hnex : ¬ ∃ x ∈ d1.containers, x.name = CONTAINER_NAME := by
                rintro ⟨x, hx, hpx⟩
                have hall := List.any_eq_false.mp hc2 x hx
                simp [hpx] at hall
              simp only [hnex, hc2, Bool.false_eq_true, if_false] at h ⊢
              cases hr : ext.runtimeRun with
              | error e => rw [hr] at h; simp at h
              | ok u => simp [hr]

lemma waitAux_trace_mem (probe : Nat → ProbeOutcome) (url : String) :
    ∀ fuel attempt elapsed, ∀ ev ∈ (waitAux probe url attempt elapsed fuel).trace,
      ev = Event.probeAttempt url ∨ ev = Event.sleepSec 1 := by
  intro fuel
  induction fuel with
  | zero => intro a e ev hev; simp [waitAux] at hev
  | succ f ih =>
      intro a e ev hev
      cases hp : probe a with
      | success => simp [waitAux, hp] at hev; exact Or.inl hev
      | fatal er => simp [waitAux, hp] at hev; exact Or.inl hev
      | unreachable =>
          simp only [waitAux, hp] at hev
          rcases List.mem_cons.mp hev with h1 | hev2
          · exact Or.inl h1
          rcases List.mem_cons.mp hev2 with h1 | hev3
          · exact Or.inr h1
          · exact ih (a + 1) (e + 1) ev hev3

lemma upgrade_trace_mem (ext : Ext) (cfg : AlembicCfg) :
    ∀ ev ∈ (upgrade_database ext cfg).trace,
      ev = Event.alembicCurrent cfg.sqlalchemyUrl ∨
      ev = Event.alembicUpgrade cfg.sqlalchemyUrl "head" := by
  intro ev hev
  unfold upgrade_database at hev
  by_cases hif : ((cfg.stdout.write ext.currentOutput).readline).1 = ""
  · cases hu : ext.upgradeOutcome with
    | error e => rw [hu] at hev; simp [hif] at hev; tauto
    | ok u => rw [hu] at hev; simp [hif] at hev; tauto
  · simp [hif] at hev
    exact Or.inl hev

/-- C7: in `start`, a failure at any step aborts the remaining steps and
propagates that originating error, and `start` performs no cleanup of
its own.  Conjuncts 1-4 show, for each phase, that its error becomes the
result and the trace stops at the failing phase (later phases never
run); conjunct 4 also shows that on a migration-phase failure - the
AlreadyMigrated guard included - the final docker state is exactly the
post-run state; conjunct 5 shows that state contains the reserved
container, running; conjunct 6 shows the wait and migration phases issue
no container stop or remove operations, so nothing stops the container
after a late failure. -/
theorem start_aborts_and_leaves_container (ext : Ext) (ctx : CtxObj) (st : DockerState) :
    (∀ e d1 t1, ensure_image_exists ext st ctx.config.image_name =
        { result := Except.error e, docker := d1, trace := t1 } →
      start ext ctx st =
        { result := Except.error e, docker := d1, cfg := ctx.alembic_cfg, trace := t1 }) ∧
    (∀ e d1 t1 d2 t2, ensure_image_exists ext st ctx.config.image_name =
        { result := Except.ok (), docker := d1, trace := t1 } →
      run_container ext d1 ctx.config.image_name ctx.config.container_env
          ctx.config.port_mapping =
        { result := Except.error e, docker := d2, trace := t2 } →
      start ext ctx st =
        { result := Except.error e, docker := d2, cfg := ctx.alembic_cfg,
          trace := t1 ++ t2 }) ∧
    (∀ e d1 t1 d2 t2 el3 at3 t3, ensure_image_exists ext st ctx.config.image_name =
        { result := Except.ok (), docker := d1, trace := t1 } →
      run_container ext d1 ctx.config.image_name ctx.config.container_env
          ctx.config.port_mapping =
        { result := Except.ok (), docker := d2, trace := t2 } →
      wait_for_db_connection ext.probe ctx.config.engine_url 60 =
        { result := Except.error e, elapsed := el3, attempts := at3, trace := t3 } →
      start ext ctx st =
        { result := Except.error e, docker := d2, cfg := ctx.alembic_cfg,
          trace := t1 ++ t2 ++ t3 }) ∧
    (∀ d1 t1 d2 t2 el3 at3 t3, ensure_image_exists ext st ctx.config.image_name =
        { result := Except.ok (), docker := d1, trace := t1 } →
      run_container ext d1 ctx.config.image_name ctx.config.container_env
          ctx.config.port_mapping =
        { result := Except.ok (), docker := d2, trace := t2 } →
      wait_for_db_connection ext.probe ctx.config.engine_url 60 =
        { result := Except.ok (), elapsed := el3, attempts := at3, trace := t3 } →
      start ext ctx st =
        { result := (upgrade_database ext ctx.alembic_cfg).result, docker := d2,
          cfg := (upgrade_database ext ctx.alembic_cfg).cfg,
          trace := t1 ++ t2 ++ t3 ++ (upgrade_database ext ctx.alembic_cfg).trace }) ∧
    (∀ d1, (run_container ext d1 ctx.config.image_name ctx.config.container_env
          ctx.config.port_mapping).result = Except.ok () →
      DockerContainer.mk CONTAINER_NAME true ∈
        (run_container ext d1 ctx.config.image_name ctx.config.container_env
          ctx.config.port_mapping).docker.containers) ∧
    (∀ ev, ev ∈ (wait_for_db_connection ext.probe ctx.config.engine_url 60).trace ++
        (upgrade_database ext ctx.alembic_cfg).trace →
      (∀ n, ¬ ev = Event.containerStop n) ∧ (∀ n, ¬ ev = Event.containerRemove n)) := by
  refine ⟨?_, ?_, ?_, ?_, ?_, ?_⟩
  · intro e d1 t1 hE
    simp [start, hE]
  · intro e d1 t1 d2 t2 hE hR
    simp [start, hE, hR]
  · intro e d1 t1 d2 t2 el3 at3 t3 hE hR hW
    simp [start, hE, hR, hW]
  · intro d1 t1 d2 t2 el3 at3 t3 hE hR hW
    rcases hU : upgrade_database ext ctx.alembic_cfg with ⟨r4, cfg4, t4⟩
    simp [start, hE, hR, hW, hU]
  · intro d1 h
    exact run_container_ok_running ext d1
      ctx.config.image_name ctx.config.container_env ctx.config.port_mapping h
  · intro ev hev
    rcases List.mem_append.mp hev with h1 | h1
    · rcases waitAux_trace_mem ext.probe ctx.config.engine_url 60 0 0 ev h1 with h2 | h2 <;>
        subst h2 <;> exact ⟨fun n => by simp, fun n => by simp⟩
    · rcases upgrade_trace_mem ext ctx.alembic_cfg ev h1 with h2 | h2 <;>
        subst h2 <;> exact ⟨fun n => by simp, fun n => by simp⟩

/-- External behaviour in which only the image pull fails. -/
def extPullFail : Ext :=
  { extAllOk with imagePull := Except.error (Err.imagePullError "net down") }

/-- Witness for C7: when the image pull fails, `start` surfaces exactly
that error, leaves the runtime state untouched, and its trace holds
nothing beyond the pull attempt - no container was run, no probe made,
no migration attempted, no cleanup performed. -/
theorem start_aborts_and_leaves_container_witness :
    start extPullFail ctxW { images := [], containers := [] } =
      { result := Except.error (Err.imagePullError "net down"),
        docker := { images := [], containers := [] },
        cfg := ctxW.alembic_cfg,
        trace := [Event.pull "db:latest"] } :=
  (start_aborts_and_leaves_container extPullFail ctxW
      { images := [], containers := [] }).1
    (Err.imagePullError "net down") { images := [], containers := [] }
    [Event.pull "db:latest"] rfl

/-! ### C10 - one database url across the probe and the migration engine -/

lemma ensure_trace_mem (ext : Ext) (st : DockerState) (n : String) :
    ∀ ev ∈ (ensure_image_exists ext st n).trace, ev = Event.pull n := by
  intro ev hev
  unfold ensure_image_exists at hev
  by_cases hc : ((firstTags st.images).contains n) = true
  · rw [if_pos hc] at hev
    simp at hev
  · rw [if_neg hc] at hev
    cases hp : ext.imagePull with
    | error e => rw [hp] at hev; simpa using hev
    | ok u => rw [hp] at hev; simpa using hev

lemma stop_trace_mem (ext : Ext) (st : DockerState) :
    ∀ ev ∈ (stop_container ext st).trace,
      ev = Event.containerStop CONTAINER_NAME ∨ ev = Event.containerRemove CONTAINER_NAME := by
  intro ev hev
  unfold stop_container at hev
  by_cases hc : ((listRunning st).any (fun c => c.name == CONTAINER_NAME)) = true
  · rw [if_pos hc] at hev
    cases h1 : ext.stopOp with
    | error e => rw [h1] at hev; simp at hev; exact Or.inl hev
    | ok u =>
        rw [h1] at hev
        cases h2 : ext.removeOp with
        | error e => rw [h2] at hev; simp at hev; exact Or.inl hev
        | ok u2 => rw [h2] at hev; simp at hev; tauto
  · rw [if_neg hc] at hev
    simp at hev

lemma run_trace_mem (ext : Ext) (st : DockerState) (i : String)
    (env : List (String × String)) (ports : List (String × Int)) :
    ∀ ev ∈ (run_container ext st i env ports).trace,
      ev = Event.containerStop CONTAINER_NAME ∨ ev = Event.containerRemove CONTAINER_NAME ∨
      ev = Event.containerRun i := by
  intro ev hev
  unfold run_container at hev
  by_cases hc : ((listRunning st).any (fun c => c.name == CONTAINER_NAME)) = true
  · rw [if_pos hc] at hev
    rcases hs : stop_container ext st with ⟨r1, d1, t1⟩
    rw [hs] at hev
    cases r1 with
    | error e =>
        simp only at hev
        have h3 := stop_trace_mem ext st ev (by rw [hs]; exact hev)
        tauto
    | ok u =>
        have hev2 : ev ∈ t1 ++ [Event.containerRun i] := by
          by_cases hc2 : ∃ x ∈ d1.containers, x.name = CONTAINER_NAME
          · simpa [hc2] using hev
          · cases hr : ext.runtimeRun with
            | error e => simpa [hc2, hr] using hev
            | ok u2 => simpa [hc2, hr] using hev
        rcases List.mem_append.mp hev2 with h | h
        · have h3 := stop_trace_mem ext st ev (by rw [hs]; exact h)
          tauto
        · simp at h; tauto
  · rw [if_neg hc] at hev
    by_cases hc2 : ∃ x ∈ st.containers, x.name = CONTAINER_NAME
    · simp [hc2] at hev; tauto
    · cases hr : ext.runtimeRun with
      | error e => simp [hc2, hr] at hev; tauto
      | ok u2 => simp [hc2, hr] at hev; tauto

set_option maxHeartbeats 2000000 in
/-- Every event in a `start` trace is one of: a pull of the configured
image, a container operation on the reserved name, a probe of the
configured engine url, a sleep, or an alembic command against the
alembic configuration's url. -/
lemma start_trace_shape (ext : Ext) (ctx : CtxObj) (st : DockerState) :
    ∀ ev ∈ (start ext ctx st).trace,
      ev = Event.pull ctx.config.image_name ∨
      ev = Event.containerStop CONTAINER_NAME ∨
      ev = Event.containerRemove CONTAINER_NAME ∨
      ev = Event.containerRun ctx.config.image_name ∨
      ev = Event.probeAttempt ctx.config.engine_url ∨
      ev = Event.sleepSec 1 ∨
      ev = Event.alembicCurrent ctx.alembic_cfg.sqlalchemyUrl ∨
      ev = Event.alembicUpgrade ctx.alembic_cfg.sqlalchemyUrl "head" := by
  intro ev hev
  unfold start at hev
  rcases hE : ensure_image_exists ext st ctx.config.image_name with ⟨r1, d1, t1⟩
  rw [hE] at hev
  have hEmem : ∀ h2 : ev ∈ t1, ev = Event.pull ctx.config.image_name := fun h2 =>
    ensure_trace_mem ext st ctx.config.image_name ev (by rw [hE]; exact h2)
  cases r1 with
  | error e =>
      simp only at hev
      exact Or.inl (hEmem hev)
  | ok u =>
      simp only at hev
      rcases hR : run_container ext d1 ctx.config.image_name ctx.config.container_env
        ctx.config.port_mapping with ⟨r2, d2, t2⟩
      rw [hR] at hev
      have hRmem : ∀ h2 : ev ∈ t2,
          ev = Event.containerStop CONTAINER_NAME ∨
          ev = Event.containerRemove CONTAINER_NAME ∨
          ev = Event.containerRun ctx.config.image_name := fun h2 =>
        run_trace_mem ext d1 ctx.config.image_name ctx.config.container_env
          ctx.config.port_mapping ev (by rw [hR]; exact h2)
      cases r2 with
      | error e =>
          simp only at hev
          rcases List.mem_append.mp hev with h | h
          · exact Or.inl (hEmem h)
          · have := hRmem h; tauto
      | ok u2 =>
          simp only at hev
          rcases hW : wait_for_db_connection ext.probe ctx.config.engine_url 60
            with ⟨r3, el3, at3, t3⟩
          rw [hW] at hev
          have hWmem : ∀ h2 : ev ∈ t3,
              ev = Event.probeAttempt ctx.config.engine_url ∨ ev = Event.sleepSec 1 := fun h2 =>
            waitAux_trace_mem ext.probe ctx.config.engine_url 60 0 0 ev (by
              have : (wait_for_db_connection ext.probe ctx.config.engine_url 60).trace = t3 := by
                rw [hW]
              rw [show (waitAux ext.probe ctx.config.engine_url 0 0 60).trace = t3 from this]
              exact h2)
          cases r3 with
          | error e =>
              simp only at hev
              rcases List.mem_append.mp hev with h | h
              · rcases List.mem_append.mp h with h4 | h4
                · exact Or.inl (hEmem h4)
                · have := hRmem h4; tauto
              · have := hWmem h; tauto
          | ok u3 =>
              simp only at hev
              rcases hU : upgrade_database ext ctx.alembic_cfg with ⟨r4, cfg4, t4⟩
              rw [hU] at hev
              have hUmem : ∀ h2 : ev ∈ t4,
                  ev = Event.alembicCurrent ctx.alembic_cfg.sqlalchemyUrl ∨
                  ev = Event.alembicUpgrade ctx.alembic_cfg.sqlalchemyUrl "head" := fun h2 =>
                upgrade_trace_mem ext ctx.alembic_cfg ev (by rw [hU]; exact h2)
              simp only at hev
              rcases List.mem_append.mp hev with h | h
              · rcases List.mem_append.mp h with h4 | h4
                · rcases List.mem_append.mp h4 with h5 | h5
                  · exact Or.inl (hEmem h5)
                  · have := hRmem h5; tauto
                · have := hWmem h4; tauto
              · have := hUmem h; tauto

/-- C10: after a successful `initialize_alembic_cfg`, the alembic
configuration's sqlalchemy.url option equals the validated config's
`engine_url` (src line 177 overwrites it before any command runs), and
consequently every event of any `start` invocation that targets a
database url - the readiness probes and all migration-engine commands -
targets exactly `engine_url`. -/
theorem flows_target_single_url (ini : IniFile) (ctx : CtxObj)
    (h : initialize_alembic_cfg ini = Except.ok ctx) :
    ctx.alembic_cfg.sqlalchemyUrl = ctx.config.engine_url ∧
    ∀ ext st ev, ev ∈ (start ext ctx st).trace → ∀ u, Event.dbUrl? ev = some u →
      u = ctx.config.engine_url := by
  have hurl : ctx.alembic_cfg.sqlalchemyUrl = ctx.config.engine_url := by
    unfold initialize_alembic_cfg at h
    split at h
    · simp at h
    · cases hp : Config.parse_obj ini.dblessSection with
      | error e => rw [hp] at h; simp at h
      | ok c =>
          rw [hp] at h
          simp only [Except.ok.injEq] at h
          rw [← h]
  refine ⟨hurl, ?_⟩
  intro ext st ev hev u hu
  rcases start_trace_shape ext ctx st ev hev with h1 | h1 | h1 | h1 | h1 | h1 | h1 | h1 <;>
    subst h1 <;> simp [Event.dbUrl?] at hu
  · exact hu.symm
  · rw [← hu, hurl]
  · rw [← hu, hurl]

/-- The ini file that yields `ctxW`. -/
def iniW : IniFile :=
  { hasDblessSection := true,
    dblessSection := { image_name := some "db:latest", container_env := some "PASS=x",
                       port_mapping := some "5432=5432", engine_url := some "db://w" } }

/-- Witness for C10: on a concrete ini file, initialization succeeds and
the alembic configuration's url equals the config's engine url. -/
theorem flows_target_single_url_witness :
    ctxW.alembic_cfg.sqlalchemyUrl = ctxW.config.engine_url :=
  (flows_target_single_url iniW ctxW rfl).1

end Dbless
